import Mathlib

/-
Verification of the Atlantis supervisor container monitor
(src/src/atlantis/monitor/monitor.go).

The Go source is shallowly embedded below.  External effects (the remote
shell transport, subprocess execution, the filesystem, wall-clock time)
are passed in explicitly:

* the outcome of a remote command (`exec.Cmd.Output`) is an
  `Except String String` value (error message, or captured stdout);
* subprocess invocations are recorded as `CmdSpec` values (program path
  plus argument vector) exactly as `exec.Command` receives them;
* the inventory directory is a list of marker file names;
* durations are natural numbers of an abstract time unit, and a
  `select` race between a completion channel and a timer is resolved by
  comparing the check duration with the timeout duration (the
  completion case wins a race when it is ready no later than the
  timer).
-/

namespace AtlantisMonitor

/-- Severity constants from the `const` block of monitor.go:
`OK = iota; Warning; Critical; Uknown`. -/
def OK : Nat := 0

/-- Severity `Warning = 1`. -/
def Warning : Nat := 1

/-- Severity `Critical = 2`. -/
def Critical : Nat := 2

/-- Severity `Uknown = 3` (name kept with the source's spelling). -/
def Uknown : Nat := 3

/-- A subprocess invocation as `os/exec.Command(path, args...)` receives
it: the program path and the argument vector. -/
structure CmdSpec where
  path : String
  args : List String
deriving DecidableEq, Repr

/-- Go `strings.SplitN` helper: the text of `s` before the first
occurrence of the separator character `c`, and the text after it;
`none` when `c` does not occur in `s`. -/
def splitFirst (c : Char) : List Char → Option (List Char × List Char)
  | [] => none
  | x :: xs =>
    if x = c then some ([], xs)
    else match splitFirst c xs with
      | none => none
      | some (l, r) => some (x :: l, r)

/-- Go `strings.SplitN(s, sep, n)` for a single-character separator and
`n ≥ 1`, on character lists: at most `n` substrings, the last one
holding the unsplit remainder; empty substrings between consecutive
separators are kept, and the result is never empty (Go returns `[""]`
for the empty string). -/
def goSplitNAux (c : Char) : Nat → List Char → List (List Char)
  | 0, _ => []
  | 1, s => [s]
  | n + 2, s =>
    match splitFirst c s with
    | none => [s]
    | some (l, r) => l :: goSplitNAux c (n + 1) r

/-- Go `strings.SplitN(s, string(c), n)` on strings. -/
def goSplitN (c : Char) (n : Nat) (s : String) : List String :=
  (goSplitNAux c n s.data).map String.mk

/-- Go `strings.Split(s, string(c))` (unlimited split): a string of
length `L` splits into at most `L + 1` parts on a one-character
separator, so fuel `L + 1` realises the unlimited split. -/
def goSplit (c : Char) (s : String) : List String :=
  goSplitN c (s.data.length + 1) s

/-- Go `unicode` white space on the ASCII range, as used by
`strings.TrimSpace`: space, tab, newline, vertical tab, form feed,
carriage return. -/
def isGoSpace (c : Char) : Bool :=
  c == ' ' || c == '\t' || c == '\n' || c == Char.ofNat 11 || c == Char.ofNat 12 || c == '\r'

/-- Go `strings.TrimSpace`: drop white space from both ends. -/
def trimSpace (s : String) : String :=
  String.mk (((s.data.dropWhile isGoSpace).reverse.dropWhile isGoSpace).reverse)

/-- The `ServiceCheck` struct of monitor.go: one check-script
invocation. `Script` is the fully composed remote command line. -/
structure ServiceCheck where
  Service : String
  User : String
  Identity : String
  Host : String
  Port : Nat
  Script : String
deriving DecidableEq, Repr

/-- Function `silentSshCmd` of monitor.go: the `ssh` invocation with quiet mode,
identity file, port, and disabled host-key checking, running `cmd` on
`user@host`. -/
def silentSshCmd (user identity host cmd : String) (port : Nat) : CmdSpec :=
  ⟨"ssh", ["-q", user ++ "@" ++ host, "-i", identity, "-p", toString port,
    "-o", "StrictHostKeyChecking=no", cmd]⟩

/-- Method `ServiceCheck.cmd` of monitor.go. -/
def ServiceCheck.cmd (s : ServiceCheck) : CmdSpec :=
  silentSshCmd s.User s.Identity s.Host s.Script s.Port

/-- Method `ServiceCheck.timeOutMsg` of monitor.go:
`fmt.Sprintf("%d %s - Timeout occured during check\n", Critical, s.Service)`. -/
def ServiceCheck.timeOutMsg (s : ServiceCheck) : String :=
  toString Critical ++ " " ++ s.Service ++ " - Timeout occured during check\n"

/-- Method `ServiceCheck.errMsg` of monitor.go; the argument is `none` for a
`nil` error and `some e` for an error whose `Error()` text is `e`. -/
def ServiceCheck.errMsg (s : ServiceCheck) (err : Option String) : String :=
  match err with
  | some e => toString Critical ++ " " ++ s.Service ++ " - " ++ e ++ "\n"
  | none => toString Critical ++ " " ++ s.Service ++ " - Error encountered while monitoring the service\n"

/-- Method `ServiceCheck.validate` of monitor.go:
`m := strings.SplitN(msg, " ", 4); if len(m) > 1 && m[1] == s.Service
{ return msg }; return s.errMsg(nil)`. -/
def ServiceCheck.validate (s : ServiceCheck) (msg : String) : String :=
  let m := goSplitN ' ' 4 msg
  if 1 < m.length ∧ m.getD 1 "" = s.Service then msg else s.errMsg none

/-- The line printed by `ServiceCheck.runCheck` of monitor.go, given the
outcome `out` of `s.cmd().Output()`: on error the error-formatted line,
otherwise the validated output. -/
def ServiceCheck.runCheckLine (s : ServiceCheck) (out : Except String String) : String :=
  match out with
  | .error e => s.errMsg (some e)
  | .ok o => s.validate o

/-- Observable behaviour of one `checkWithTimeout` call: `emissions`
are the `(time, line)` prints made on the path that feeds the results
channel, `background` are the prints of the abandoned `runCheck`
goroutine after a timeout (they occur only if the process is still
alive at that point; the select has stopped listening for them), and
`signals` counts sends on the results channel. -/
structure TimedRun where
  emissions : List (Nat × String)
  background : List (Nat × String)
  signals : Nat
deriving DecidableEq, Repr

/-- Method `ServiceCheck.checkWithTimeout` of monitor.go, for a check whose
underlying remote command finishes at time `d` with outcome `out`,
raced against `time.After t`.  The select receives from `done` when the
check finishes no later than the timer (`d ≤ t`); the line printed by
`runCheck` is then the check's emission.  Otherwise the timer fires
first at time `t`, `timeOutMsg` is printed, and the still-running
`runCheck` is abandoned (its own print happens at `d`, in the
background).  Both branches send exactly one completion signal. -/
def ServiceCheck.checkWithTimeout (s : ServiceCheck) (out : Except String String)
    (d t : Nat) : TimedRun :=
  if d ≤ t then ⟨[(d, s.runCheckLine out)], [], 1⟩
  else ⟨[(t, s.timeOutMsg)], [(d, s.runCheckLine out)], 1⟩

/-- The container data consumed by the monitor (from
`atlantis/supervisor/rpc/types`): identity, network location, and the
`Manifest.Deps["cmk"].DataMap["contact_group"]` string when present
(`none` covers both a missing `"cmk"` dependency and a missing or
non-string `contact_group` entry, the two cases monitor.go treats
identically). -/
structure Container where
  ID : String
  Host : String
  SSHPort : Nat
  PrimaryPort : Nat
  cmkContactGroup : Option String
deriving DecidableEq, Repr

/-- The `ContainerCheck` struct of monitor.go. -/
structure ContainerCheck where
  Name : String
  User : String
  Identity : String
  Directory : String
  Inventory : String
  container : Container
deriving DecidableEq, Repr

/-- Contact-group resolution at the top of `checkAll`: the container's
`cmk` dependency's `contact_group` string when present, otherwise the
default `"atlantis_orphan_apps"`. -/
def contactGroup (c : Container) : String :=
  match c.cmkContactGroup with
  | some grp => grp
  | none => "atlantis_orphan_apps"

/-- The service name computed in the `checkAll` loop of monitor.go:
`fmt.Sprintf("%s_%s", strings.Split(s, ".")[0], c.container.ID)` —
the portion of the script name before the first dot, an underscore, and
the container id. -/
def checkAllServiceName (c : Container) (s : String) : String :=
  (goSplit '.' s).headD ("") ++ "_" ++ c.ID

/-- Method `ContainerCheck.serviceCheck` of monitor.go: the remote command is
`fmt.Sprintf("%s/%s %d %s", c.Directory, script, c.container.PrimaryPort,
c.container.ID)` and the service name is
`fmt.Sprintf("%s_%s", strings.Split(script, ".")[0], c.container.ID)`
(written out here exactly as in the source, independently of the
`checkAll` loop's copy of the same formula). -/
def ContainerCheck.serviceCheck (c : ContainerCheck) (script : String) : ServiceCheck :=
  ⟨(goSplit '.' script).headD ("") ++ "_" ++ c.container.ID,
   c.User, c.Identity, c.container.Host, c.container.SSHPort,
   c.Directory ++ "/" ++ script ++ " " ++ toString c.container.PrimaryPort ++ " " ++ c.container.ID⟩

/-- The registration subprocess of the `checkAll` loop, exactly as the
source constructs it:
`exec.Command(fmt.Sprintf("/usr/bin/cmk_admin -s %s -a %s", serviceName, contact_group))` —
a single string passed as the program path, with an empty argument
vector. -/
def registrationCmd (serviceName grp : String) : CmdSpec :=
  ⟨"/usr/bin/cmk_admin -s " ++ serviceName ++ " -a " ++ grp, []⟩

/-- The re-inventory subprocess of `Run`, exactly as the source
constructs it: `exec.Command("/usr/bin/cmk_admin -I")` — again a single
string as the program path and no argument vector. -/
def reinventoryCmd : CmdSpec :=
  ⟨"/usr/bin/cmk_admin -I", []⟩

/-- The diagnostic printed when registration fails in `checkAll`:
`fmt.Printf("Failure to update contact group for service %s. Error:\n%s\n", serviceName, err.Error())`. -/
def regFailMsg (serviceName err : String) : String :=
  "Failure to update contact group for service " ++ serviceName ++ ". Error:\n" ++ err ++ "\n"

/-- Observable result of one `checkAll` call (or of its per-script
loop): `lines` are the synchronously printed diagnostics, `markers` the
inventory marker names present afterwards, `regNames` the service
names for which the registration subprocess was invoked (in order,
failed invocations included), `regCmds` the corresponding `CmdSpec`
values as `exec.Command` received them, `spawned` the scripts whose
`checkWithTimeout` goroutine was launched, and `aborted` whether the
loop returned early on a registration failure. -/
structure CheckAllResult where
  lines : List String
  markers : List String
  regNames : List String
  regCmds : List CmdSpec
  spawned : List String
  aborted : Bool
deriving DecidableEq, Repr

/-- The per-script loop of `ContainerCheck.checkAll` in monitor.go.
`reg` is the external outcome of the registration subprocess for a
given service name (`none` = success, `some e` = failure with error
text `e`); the marker-existence test `os.Stat` / `os.IsNotExist` is the
membership test on the marker list, and `os.Create` appends the marker.
On registration failure the diagnostic is printed and the whole
remaining loop is abandoned (`return` in the source); on success, or
when the marker already exists, the script's check goroutine is
spawned and the loop continues. -/
def checkAllLoop (c : Container) (reg : String → Option String) (grp : String) :
    List String → List String → CheckAllResult
  | [], M => ⟨[], M, [], [], [], false⟩
  | s :: rest, M =>
    if checkAllServiceName c s ∈ M then
      let r := checkAllLoop c reg grp rest M
      ⟨r.lines, r.markers, r.regNames, r.regCmds, s :: r.spawned, r.aborted⟩
    else
      match reg (checkAllServiceName c s) with
      | some e =>
        ⟨[regFailMsg (checkAllServiceName c s) e], M,
         [checkAllServiceName c s], [registrationCmd (checkAllServiceName c s) grp], [], true⟩
      | none =>
        let r := checkAllLoop c reg grp rest (M ++ [checkAllServiceName c s])
        ⟨r.lines, r.markers, checkAllServiceName c s :: r.regNames,
         registrationCmd (checkAllServiceName c s) grp :: r.regCmds, s :: r.spawned, r.aborted⟩

/-- Method `ContainerCheck.checkAll` of monitor.go: resolves the contact group
once, then runs the per-script loop.  (The final
`for range scripts { <-results }` drain does not alter any of the
observables tracked here.) -/
def checkAll (c : Container) (reg : String → Option String)
    (scripts M : List String) : CheckAllResult :=
  checkAllLoop c reg (contactGroup c) scripts M

/-- The line `fmt.Printf("%d %s - Got checks for container\n", OK, c.Name)`
of `ContainerCheck.Run`. -/
def gotChecksMsg (name : String) : String :=
  toString OK ++ " " ++ name ++ " - Got checks for container\n"

/-- The line
`fmt.Printf("%d %s - Error getting checks for container:\n%s\n", Critical, c.Name, err.Error())`
of `ContainerCheck.Run`. -/
def discoveryErrMsg (name err : String) : String :=
  toString Critical ++ " " ++ name ++ " - Error getting checks for container:\n" ++ err ++ "\n"

/-- Observable result of one `ContainerCheck.Run` call.  `doneSignals`
counts sends on the orchestrator's `done` channel (the deferred send
fires on every exit path). -/
structure ContainerRunResult where
  lines : List String
  markers : List String
  regNames : List String
  spawned : List String
  doneSignals : Nat
deriving DecidableEq, Repr

/-- Method `ContainerCheck.Run` of monitor.go.  Input `discovery` is the outcome of
the remote `ls <Directory>` command.  On error: one Critical line and
return.  Otherwise the OK discovery line is printed, the trimmed output
is split on newlines, and when the script list is empty or its first
entry is the empty string the function returns with nothing more done;
otherwise `checkAll` runs. -/
def ContainerCheck.Run (c : ContainerCheck) (reg : String → Option String)
    (M : List String) (discovery : Except String String) : ContainerRunResult :=
  match discovery with
  | .error e => ⟨[discoveryErrMsg c.Name e], M, [], [], 1⟩
  | .ok o =>
    let scripts := goSplit '\n' (trimSpace o)
    if scripts.length = 0 ∨ (scripts.headD ("")).length = 0 then
      ⟨[gotChecksMsg c.Name], M, [], [], 1⟩
    else
      let r := checkAll c.container reg scripts M
      ⟨gotChecksMsg c.Name :: r.lines, r.markers, r.regNames, r.spawned, 1⟩

/-- The `Config` struct of monitor.go (flag and TOML plumbing is out of
scope; a resolved configuration is consumed as data). -/
structure Config where
  ContainerFile : String
  InventoryDir : String
  SSHIdentity : String
  SSHUser : String
  CheckName : String
  CheckDir : String
  TimeoutDuration : Nat
deriving DecidableEq, Repr

/-- The default `config` value of monitor.go. -/
def defaultConfig : Config :=
  ⟨"/etc/atlantis/supervisor/save/containers",
   "/etc/atlantis/supervisor/inventory",
   "/opt/atlantis/supervisor/master_id_rsa",
   "root", "ContainerMonitor", "/check_mk_checks", 110⟩

/-- The `ContainerCheck` value built in the orchestrator loop of `Run`,
including the `localhost` default for an empty host. -/
def mkCheck (cfg : Config) (c : Container) : ContainerCheck :=
  ⟨cfg.CheckName ++ "_" ++ c.ID, cfg.SSHUser, cfg.SSHIdentity, cfg.CheckDir,
   cfg.InventoryDir,
   { c with Host := if c.Host = "" then ("localhost") else c.Host }⟩

/-- One step of the orchestrator `Run`, in program order: a print to
standard output, the spawn of a container worker, a subprocess
invocation, a receive on the `done` channel, or the start of the
inventory garbage-collection walk. -/
inductive Action where
  | print (line : String)
  | spawn (id : String)
  | execCmd (c : CmdSpec)
  | waitDone
  | gcStart
deriving DecidableEq, Repr

/-- The line `fmt.Printf("%d %s - Directory does not exists %s\n", OK, config.CheckName, config.ContainerFile)`. -/
def missingMsg (cfg : Config) : String :=
  toString OK ++ " " ++ cfg.CheckName ++ " - Directory does not exists " ++ cfg.ContainerFile ++ "\n"

/-- The line `fmt.Printf("%d %s - Able to open %s\n", OK, config.CheckName, config.ContainerFile)`. -/
def ableMsg (cfg : Config) : String :=
  toString OK ++ " " ++ cfg.CheckName ++ " - Able to open " ++ cfg.ContainerFile ++ "\n"

/-- The line `fmt.Printf("%d %s - Could not retrieve %s: %s\n", Critical, config.CheckName, config.ContainerFile, err)`. -/
def retrieveErrMsg (cfg : Config) (e : String) : String :=
  toString Critical ++ " " ++ cfg.CheckName ++ " - Could not retrieve " ++ cfg.ContainerFile ++ ": " ++ e ++ "\n"

/-- The ordered action trace of the orchestrator `Run` of monitor.go.
`fileExists` is the outcome of the `os.Stat` / `os.IsNotExist` test on
the container file and `retr` the outcome of
`serialize.RetrieveObject` (the container map, as an association list
in the iteration order of the Go map, which is arbitrary).  In source
order: missing file → one OK line and return; retrieval failure → one
Critical line and return; otherwise the OK line, one spawn per
container, the re-inventory subprocess, one `done` receive per
container, then the GC walk. -/
def orchestratorRun (cfg : Config) (fileExists : Bool)
    (retr : Except String (List (String × Container))) : List Action :=
  if fileExists = false then [.print (missingMsg cfg)]
  else
    match retr with
    | .error e => [.print (retrieveErrMsg cfg e)]
    | .ok m =>
      .print (ableMsg cfg) ::
        (m.map (fun p => Action.spawn p.1) ++
          Action.execCmd reinventoryCmd ::
            (m.map (fun _ => Action.waitDone) ++ [Action.gcStart]))

/-- The trailing underscore-delimited segment of a path, as the GC walk
callback computes it: `split := strings.Split(path, "_"); cont := split[len(split)-1]`. -/
def lastUnderscoreSeg (p : String) : String :=
  (goSplit '_' p).getLastD ("")

/-- Result of the GC walk: the marker names still present, whether the
inventory directory itself was removed, and whether the walk ended in
an error (in which case `Run` prints its GC diagnostic). -/
structure GCResult where
  remaining : List String
  rootRemoved : Bool
  walkErr : Bool
deriving DecidableEq, Repr

/-- The `filepath.Walk` GC pass at the end of `Run` in monitor.go,
over an inventory directory `invDir` containing the marker files
`markers` (its only entries), with `invKeys` the key set of the current
container map.  Go's `filepath.Walk` visits the root directory itself
first and aborts the whole walk when the callback returns a non-nil
error.  The callback removes any visited path whose trailing
underscore-delimited segment is not a current container id, so:

* if the root directory's own path has a current container id as its
  trailing segment, the root is spared and each marker file is visited
  (full path `invDir ++ "/" ++ name`) and removed exactly when its
  trailing segment is stale — `os.Remove` on an existing file succeeds;
* otherwise the callback calls `os.Remove` on the root directory:
  for an empty directory this succeeds (the directory is deleted, and
  there are no children to visit); for a non-empty directory it fails,
  the callback returns the error, and the walk aborts before visiting
  any marker. -/
def inventoryGC (invDir : String) (markers : List String) (invKeys : List String) : GCResult :=
  if lastUnderscoreSeg invDir ∈ invKeys then
    ⟨markers.filter (fun name => lastUnderscoreSeg (invDir ++ "/" ++ name) ∈ invKeys),
     false, false⟩
  else if markers.isEmpty then ⟨[], true, false⟩
  else ⟨markers, false, true⟩

/-- The external inputs one container worker consumes: the outcome of
its remote script listing and its registration-subprocess oracle. -/
structure ContainerWorld where
  discovery : Except String String
  reg : String → Option String

/-- Splitting the `checkAll` loop at an un-aborted prefix: processing
`l1 ++ l2` from `M` first processes `l1`, then processes `l2` from the
marker state `l1` left behind, concatenating all the observables. -/
theorem checkAllLoop_append (c : Container) (reg : String → Option String)
    (grp : String) (l2 : List String) :
    ∀ (l1 M : List String), (checkAllLoop c reg grp l1 M).aborted = false →
    checkAllLoop c reg grp (l1 ++ l2) M =
      ⟨(checkAllLoop c reg grp l1 M).lines ++
         (checkAllLoop c reg grp l2 (checkAllLoop c reg grp l1 M).markers).lines,
       (checkAllLoop c reg grp l2 (checkAllLoop c reg grp l1 M).markers).markers,
       (checkAllLoop c reg grp l1 M).regNames ++
         (checkAllLoop c reg grp l2 (checkAllLoop c reg grp l1 M).markers).regNames,
       (checkAllLoop c reg grp l1 M).regCmds ++
         (checkAllLoop c reg grp l2 (checkAllLoop c reg grp l1 M).markers).regCmds,
       (checkAllLoop c reg grp l1 M).spawned ++
         (checkAllLoop c reg grp l2 (checkAllLoop c reg grp l1 M).markers).spawned,
       (checkAllLoop c reg grp l2 (checkAllLoop c reg grp l1 M).markers).aborted⟩ := by
  intro l1
  induction l1 with
  | nil => intro M h; rfl
  | cons s l1 ih =>
    intro M h
    by_cases hm : checkAllServiceName c s ∈ M
    · rw [checkAllLoop, if_pos hm] at h
      simp only [List.cons_append, checkAllLoop, if_pos hm, List.append_eq]
      rw [ih M h]
    · rw [checkAllLoop, if_neg hm] at h
      cases hr : reg (checkAllServiceName c s) with
      | some e =>
        rw [hr] at h
        simp at h
      | none =>
        rw [hr] at h
        simp only at h
        simp only [List.cons_append, checkAllLoop, if_neg hm, hr, List.append_eq]
        rw [ih (M ++ [checkAllServiceName c s]) h]

/-- Concrete container used to evaluate theorems on concrete inputs. -/
def cont1 : Container :=
  ⟨"c1", "h1", 22, 8080, none⟩

/-- Concrete `ServiceCheck` used to evaluate theorems on concrete
inputs. -/
def sampleCheck : ServiceCheck :=
  ⟨"cpu_c1", "root", "/opt/atlantis/supervisor/master_id_rsa", "h1", 22,
   "/check_mk_checks/cpu.sh 8080 c1"⟩

/-- Concrete `ContainerCheck` used to evaluate theorems on concrete
inputs. -/
def sampleCC : ContainerCheck :=
  ⟨"ContainerMonitor_c1", "root", "/opt/atlantis/supervisor/master_id_rsa",
   "/check_mk_checks", "/etc/atlantis/supervisor/inventory", cont1⟩

/-- A registration oracle on which every invocation succeeds. -/
def regAllOk : String → Option String := fun _ => none

/-- A registration oracle on which the invocation for service
`mem_c1` fails with error text `exit status 1` and every other
invocation succeeds. -/
def regFailOnMem : String → Option String :=
  fun n => if n = "mem_c1" then some ("exit status 1") else none

/-- C1: for every `ServiceCheck`, timeout duration `t` and check
duration `d`: if `d > t`, `checkWithTimeout` emits exactly the fixed
timeout line `2 <service> - Timeout occured during check` (severity
Critical), emitted no earlier than `t`, and sends one completion
signal; if `d ≤ t`, the emitted line equals the line `runCheck`
produces (the validated output on success, the error-formatted line on
failure), again with one completion signal. -/
theorem checkWithTimeout_race (s : ServiceCheck) (out : Except String String) (d t : Nat) :
    (t < d →
      (s.checkWithTimeout out d t).emissions = [(t, s.timeOutMsg)] ∧
      s.timeOutMsg = toString Critical ++ " " ++ s.Service ++ " - Timeout occured during check\n" ∧
      (∀ e ∈ (s.checkWithTimeout out d t).emissions, t ≤ e.1) ∧
      (s.checkWithTimeout out d t).signals = 1) ∧
    (d ≤ t →
      (s.checkWithTimeout out d t).emissions = [(d, s.runCheckLine out)] ∧
      (s.checkWithTimeout out d t).signals = 1) := by
  constructor
  · intro h
    have hnot : ¬ d ≤ t := by omega
    simp [ServiceCheck.checkWithTimeout, hnot, ServiceCheck.timeOutMsg]
  · intro h
    simp [ServiceCheck.checkWithTimeout, h]

/-- Witness for C1: the race evaluated at concrete durations, on both
sides of the deadline. -/
theorem checkWithTimeout_race_witness :
    (sampleCheck.checkWithTimeout (Except.ok ("0 cpu_c1 - ok\n")) 7 5).emissions =
      [(5, sampleCheck.timeOutMsg)] ∧
    (sampleCheck.checkWithTimeout (Except.ok ("0 cpu_c1 - ok\n")) 3 5).emissions =
      [(3, sampleCheck.runCheckLine (Except.ok ("0 cpu_c1 - ok\n")))] :=
  ⟨((checkWithTimeout_race sampleCheck (Except.ok ("0 cpu_c1 - ok\n")) 7 5).1 (by decide)).1,
   ((checkWithTimeout_race sampleCheck (Except.ok ("0 cpu_c1 - ok\n")) 3 5).2 (by decide)).1⟩

/-- C2: for every `ServiceCheck` `s` and output `msg`: when the second
token of `msg` (under the source's `strings.SplitN(msg, " ", 4)`)
equals `s.Service`, `validate` returns `msg` unchanged; for any other
second token, or when `msg` has fewer than two tokens, `validate`
discards `msg` and returns the generic Critical line naming
`s.Service`. -/
theorem validate_second_token (s : ServiceCheck) (msg : String) :
    ((goSplitN ' ' 4 msg)[1]? = some s.Service → s.validate msg = msg) ∧
    ((goSplitN ' ' 4 msg)[1]? ≠ some s.Service →
      s.validate msg = s.errMsg none ∧
      s.errMsg none =
        toString Critical ++ " " ++ s.Service ++ " - Error encountered while monitoring the service\n") := by
  unfold ServiceCheck.validate
  match h : goSplitN ' ' 4 msg with
  | [] => simp [ServiceCheck.errMsg]
  | [a] => simp [ServiceCheck.errMsg]
  | a :: b :: rest =>
    constructor
    · intro hb
      simp at hb
      simp [hb]
    · intro hb
      simp at hb
      have : ¬ (1 < (a :: b :: rest).length ∧ (a :: b :: rest).getD 1 "" = s.Service) := by
        simp [hb]
      simp [this, hb, ServiceCheck.errMsg]

/-- Witness for C2: `validate` evaluated on a matching and on a
mismatching second token. -/
theorem validate_second_token_witness :
    sampleCheck.validate ("0 cpu_c1 - ok\n") = "0 cpu_c1 - ok\n" ∧
    sampleCheck.validate ("0 wrong - ok\n") = sampleCheck.errMsg none :=
  ⟨(validate_second_token sampleCheck ("0 cpu_c1 - ok\n")).1 (by decide),
   ((validate_second_token sampleCheck ("0 wrong - ok\n")).2 (by decide)).1⟩

/-- C3 (code bug): the GC pass evaluated on the default inventory
directory holding the single stale marker `cpu_c1` with an empty
container inventory.  The claim (and the source's own comment,
`Clean up inventories from containers that no longer exist`) requires
the stale marker to be deleted, but `filepath.Walk` visits the
inventory directory itself first; its path's trailing
underscore-delimited segment is no container id, so the callback calls
`os.Remove` on the non-empty directory, which fails and aborts the walk:
the stale marker survives and only the GC error diagnostic is printed. -/
theorem inventoryGC_walk_root_bug :
    inventoryGC ("/etc/atlantis/supervisor/inventory") ["cpu_c1"] [] =
      ⟨["cpu_c1"], false, true⟩ := by
  rfl

/-- C7: when the configured container file does not exist, `Run` emits
exactly one output line — the OK line
`0 <checkName> - Directory does not exists <path>` — and performs no
further processing: in particular the trace is independent of what
deserialization would have produced. -/
theorem run_missing_inventory (cfg : Config)
    (retr retr2 : Except String (List (String × Container))) :
    orchestratorRun cfg false retr = [Action.print (missingMsg cfg)] ∧
    orchestratorRun cfg false retr = orchestratorRun cfg false retr2 ∧
    missingMsg defaultConfig =
      "0 ContainerMonitor - Directory does not exists /etc/atlantis/supervisor/save/containers\n" :=
  ⟨rfl, rfl, rfl⟩

/-- Modelled from the spec words of C9 (for comparison only): the base
name of a script without its file extension, i.e. the portion before
the last dot (the whole name when there is no dot). -/
def baseNameWithoutExtension (s : String) : String :=
  let parts := goSplit '.' s
  if parts.length ≤ 1 then s else String.intercalate (".") parts.dropLast

/-- Counterexample to C9 as stated: for the script `a.b.sh` the
source derives service name `a_c1` (everything before the first dot),
not `a.b_c1` (the base name without its extension). -/
theorem serviceName_not_extension_counterexample :
    (sampleCC.serviceCheck ("a.b.sh")).Service ≠
      baseNameWithoutExtension ("a.b.sh") ++ "_" ++ sampleCC.container.ID := by
  decide

/-- C9 as amended: the derived service name is the portion of the
script name before its first dot, an underscore, and the container id —
identically in `checkAll` and `serviceCheck` — and the remote command
is `<Directory>/<script> <PrimaryPort> <ID>`, which is the command
string carried into the `ssh` invocation. -/
theorem serviceCheck_derivation (cc : ContainerCheck) (s : String) :
    (cc.serviceCheck s).Service = checkAllServiceName cc.container s ∧
    checkAllServiceName cc.container s =
      (goSplit '.' s).headD ("") ++ "_" ++ cc.container.ID ∧
    (cc.serviceCheck s).Script =
      cc.Directory ++ "/" ++ s ++ " " ++ toString cc.container.PrimaryPort ++ " " ++ cc.container.ID ∧
    (cc.serviceCheck s).cmd.args.getLastD ("") = (cc.serviceCheck s).Script :=
  ⟨rfl, rfl, rfl, rfl⟩

/-- Counterexample to C4 as stated: on a blank discovery output the
container run does not emit zero lines — the OK line
`0 <name> - Got checks for container` has already been printed before
the empty-script-list test. -/
theorem containerRun_blank_counterexample :
    ¬ (sampleCC.Run regAllOk [] (Except.ok (""))).lines = [] := by
  decide

/-- C4 as amended: for every `ContainerCheck` whose remote script
listing succeeds with output that is empty after trimming,
`ContainerCheck.Run` emits exactly one line — the OK discovery line
`Got checks for container` — spawns zero check workers, performs zero
registrations, leaves the markers unchanged, and signals completion
normally (no error line). -/
theorem containerRun_blank_discovery (c : ContainerCheck) (reg : String → Option String)
    (M : List String) (o : String) (h : trimSpace o = "") :
    c.Run reg M (Except.ok o) = ⟨[gotChecksMsg c.Name], M, [], [], 1⟩ := by
  simp only [ContainerCheck.Run, h]
  rfl

/-- Witness for C4: the amended statement evaluated on a blank
discovery output. -/
theorem containerRun_blank_discovery_witness :
    sampleCC.Run regAllOk [] (Except.ok (" \n ")) =
      ⟨[gotChecksMsg ("ContainerMonitor_c1")], [], [], [], 1⟩ :=
  containerRun_blank_discovery sampleCC regAllOk [] (" \n ") (by decide)

/-- Number of receives on the `done` channel in an orchestrator action
trace. -/
def waitCount : List Action → Nat
  | [] => 0
  | Action.waitDone :: tr => waitCount tr + 1
  | Action.print _ :: tr => waitCount tr
  | Action.spawn _ :: tr => waitCount tr
  | Action.execCmd _ :: tr => waitCount tr
  | Action.gcStart :: tr => waitCount tr

/-- C8 as stated, as a predicate on traces: every occurrence of the
re-inventory subprocess comes after `n` completion signals have been
received. -/
def reinventoryAfterAllWaits (tr : List Action) (n : Nat) : Prop :=
  ∀ i, tr[i]? = some (Action.execCmd reinventoryCmd) → n ≤ waitCount (tr.take i)

/-- Counterexample to C8 as stated: with a single container the
orchestrator trace runs the re-inventory subprocess at position 2,
before any receive on the `done` channel — the source triggers
`cmk_admin -I` right after spawning the container workers and only
then enters the completion-wait loop. -/
theorem reinventory_before_wait_counterexample :
    ¬ reinventoryAfterAllWaits (orchestratorRun defaultConfig true (Except.ok [("c1", cont1)])) 1 := by
  intro h
  have h2 := h 2 (by rfl)
  revert h2
  decide

/-- Function `waitCount` distributes over append. -/
theorem waitCount_append (l1 l2 : List Action) :
    waitCount (l1 ++ l2) = waitCount l1 + waitCount l2 := by
  induction l1 with
  | nil => simp [waitCount]
  | cons a l ih => cases a <;> simp [waitCount, ih, Nat.add_right_comm]

/-- A trace of spawn actions contains no `done` receive. -/
theorem waitCount_spawnMap (m : List (String × Container)) :
    waitCount (m.map (fun p => Action.spawn p.1)) = 0 := by
  induction m with
  | nil => rfl
  | cons a l ih => simpa [waitCount] using ih

/-- A trace of `done` receives, one per container, counts the
containers. -/
theorem waitCount_waitMap (m : List (String × Container)) :
    waitCount (m.map (fun _ => Action.waitDone)) = m.length := by
  induction m with
  | nil => rfl
  | cons a l ih => simpa [waitCount] using ih

/-- A trace of `n` `done` receives counts `n`. -/
theorem waitCount_replicate (n : Nat) :
    waitCount (List.replicate n Action.waitDone) = n := by
  induction n with
  | zero => rfl
  | succ k ih => simpa [List.replicate, waitCount] using ih

/-- C8 as amended: in the orchestrator `Run` with an existing container
file and a successfully retrieved container map, the trace is: the OK
line, one spawn per container, the re-inventory subprocess, one `done`
receive per container, then the GC walk — so the re-inventory trigger
happens after spawning but before any completion signal is received
(zero receives precede it), and the wait for all `m.length` completion
signals happens before the GC pass. -/
theorem run_reinventory_order (cfg : Config) (m : List (String × Container)) :
    orchestratorRun cfg true (Except.ok m) =
      Action.print (ableMsg cfg) ::
        (m.map (fun p => Action.spawn p.1) ++
          Action.execCmd reinventoryCmd ::
            (m.map (fun _ => Action.waitDone) ++ [Action.gcStart])) ∧
    waitCount (Action.print (ableMsg cfg) :: m.map (fun p => Action.spawn p.1)) = 0 ∧
    waitCount (orchestratorRun cfg true (Except.ok m)) = m.length := by
  refine ⟨rfl, ?_, ?_⟩
  · simpa [waitCount] using waitCount_spawnMap m
  · show waitCount (Action.print (ableMsg cfg) ::
      (m.map (fun p => Action.spawn p.1) ++
        Action.execCmd reinventoryCmd ::
          (m.map (fun _ => Action.waitDone) ++ [Action.gcStart]))) = m.length
    simp [waitCount, waitCount_append, waitCount_spawnMap, waitCount_waitMap,
      waitCount_replicate]

/-- Every registration subprocess recorded by the `checkAll` loop is a
`registrationCmd`, hence carries an empty argument vector. -/
theorem checkAllLoop_regCmds_args (c : Container) (reg : String → Option String)
    (grp : String) :
    ∀ (scripts M : List String), ∀ cmd ∈ (checkAllLoop c reg grp scripts M).regCmds,
      cmd.args = [] := by
  intro scripts
  induction scripts with
  | nil =>
    intro M cmd hc
    simp [checkAllLoop] at hc
  | cons s rest ih =>
    intro M cmd hc
    by_cases h : checkAllServiceName c s ∈ M
    · rw [checkAllLoop, if_pos h] at hc
      exact ih M cmd hc
    · rw [checkAllLoop, if_neg h] at hc
      cases hr : reg (checkAllServiceName c s) with
      | some e =>
        rw [hr] at hc
        simp at hc
        rw [hc]
        rfl
      | none =>
        rw [hr] at hc
        simp at hc
        cases hc with
        | inl h1 => rw [h1]; rfl
        | inr h2 => exact ih (M ++ [checkAllServiceName c s]) cmd h2

/-- C10: both alerting-backend subprocess invocations are constructed
with the entire command line as the program path and an empty argument
vector — registration runs the single program name
`/usr/bin/cmk_admin -s <serviceName> -a <contactGroup>` and
re-inventory runs the single program name `/usr/bin/cmk_admin -I`,
not the split form with a separate argument vector; accordingly every
registration subprocess recorded by `checkAll` has an empty argument
vector. -/
theorem cmk_admin_single_program_string (name grp : String) (c : Container)
    (reg : String → Option String) (scripts M : List String) :
    registrationCmd name grp =
      ⟨"/usr/bin/cmk_admin -s " ++ name ++ " -a " ++ grp, []⟩ ∧
    reinventoryCmd = ⟨"/usr/bin/cmk_admin -I", []⟩ ∧
    registrationCmd name grp ≠ ⟨"/usr/bin/cmk_admin", ["-s", name, "-a", grp]⟩ ∧
    reinventoryCmd ≠ ⟨"/usr/bin/cmk_admin", ["-I"]⟩ ∧
    ((checkAll c reg scripts M).regCmds.all fun cmd => cmd.args.isEmpty) = true := by
  refine ⟨rfl, rfl, ?_, by decide, ?_⟩
  · intro h
    have := congrArg CmdSpec.args h
    simp [registrationCmd] at this
  · rw [List.all_eq_true]
    intro cmd hc
    have := checkAllLoop_regCmds_args c reg (contactGroup c) scripts M cmd hc
    simp [this]

/-- The service names for which the `checkAll` loop invokes the
registration subprocess when every invocation succeeds: the names not
yet marked, each recorded once, in first-occurrence order, with the
marker set growing as the loop proceeds. -/
def newServiceNames (c : Container) : List String → List String → List String
  | [], _ => []
  | s :: rest, M =>
    if checkAllServiceName c s ∈ M then newServiceNames c rest M
    else checkAllServiceName c s :: newServiceNames c rest (M ++ [checkAllServiceName c s])

/-- With an always-succeeding registration oracle the `checkAll` loop
never aborts, registers exactly `newServiceNames`, and extends the
marker set by exactly those names. -/
theorem checkAllLoop_success (c : Container) (reg : String → Option String)
    (grp : String) (hall : ∀ n, reg n = none) :
    ∀ (scripts M : List String),
      (checkAllLoop c reg grp scripts M).aborted = false ∧
      (checkAllLoop c reg grp scripts M).regNames = newServiceNames c scripts M ∧
      (checkAllLoop c reg grp scripts M).markers = M ++ newServiceNames c scripts M := by
  intro scripts
  induction scripts with
  | nil => intro M; exact ⟨rfl, rfl, by simp [checkAllLoop, newServiceNames]⟩
  | cons s rest ih =>
    intro M
    by_cases hm : checkAllServiceName c s ∈ M
    · simp only [checkAllLoop, if_pos hm, newServiceNames]
      exact ih M
    · simp only [checkAllLoop, if_neg hm, hall (checkAllServiceName c s), newServiceNames]
      refine ⟨(ih (M ++ [checkAllServiceName c s])).1, ?_, ?_⟩
      · simp [(ih (M ++ [checkAllServiceName c s])).2.1]
      · simp [(ih (M ++ [checkAllServiceName c s])).2.2]

/-- Every name produced by `newServiceNames` was not yet marked. -/
theorem newServiceNames_disjoint (c : Container) :
    ∀ (scripts M : List String) (x : String),
      x ∈ newServiceNames c scripts M → x ∉ M := by
  intro scripts
  induction scripts with
  | nil => intro M x hx; simp [newServiceNames] at hx
  | cons s rest ih =>
    intro M x hx
    by_cases hm : checkAllServiceName c s ∈ M
    · rw [newServiceNames, if_pos hm] at hx
      exact ih M x hx
    · rw [newServiceNames, if_neg hm] at hx
      cases hx with
      | head => exact hm
      | tail _ h2 =>
        intro hxm
        exact ih (M ++ [checkAllServiceName c s]) x h2 (by simp [hxm])

/-- Function `newServiceNames` records each service name at most once. -/
theorem newServiceNames_nodup (c : Container) :
    ∀ (scripts M : List String), (newServiceNames c scripts M).Nodup := by
  intro scripts
  induction scripts with
  | nil => intro M; simp [newServiceNames]
  | cons s rest ih =>
    intro M
    by_cases hm : checkAllServiceName c s ∈ M
    · rw [newServiceNames, if_pos hm]; exact ih M
    · rw [newServiceNames, if_neg hm]
      refine List.nodup_cons.mpr ⟨?_, ih (M ++ [checkAllServiceName c s])⟩
      intro hmem
      exact newServiceNames_disjoint c rest (M ++ [checkAllServiceName c s])
        (checkAllServiceName c s) hmem (by simp)

/-- After a successful pass every script's service name is marked. -/
theorem newServiceNames_covers (c : Container) :
    ∀ (scripts M : List String) (s : String), s ∈ scripts →
      checkAllServiceName c s ∈ M ++ newServiceNames c scripts M := by
  intro scripts
  induction scripts with
  | nil => intro M s hs; simp at hs
  | cons s0 rest ih =>
    intro M s hs
    by_cases hm : checkAllServiceName c s0 ∈ M
    · rw [newServiceNames, if_pos hm]
      cases hs with
      | head => simp [hm]
      | tail _ h2 => exact ih M s h2
    · rw [newServiceNames, if_neg hm]
      cases hs with
      | head => simp
      | tail _ h2 =>
        have := ih (M ++ [checkAllServiceName c s0]) s h2
        simp only [List.append_assoc, List.singleton_append] at this
        simpa using this

/-- When every script's service name is already marked, no
registration happens. -/
theorem newServiceNames_all_marked (c : Container) :
    ∀ (scripts M : List String),
      (∀ s ∈ scripts, checkAllServiceName c s ∈ M) →
      newServiceNames c scripts M = [] := by
  intro scripts
  induction scripts with
  | nil => intro M _; rfl
  | cons s rest ih =>
    intro M h
    rw [newServiceNames, if_pos (h s (by simp))]
    exact ih M (fun x hx => h x (by simp [hx]))

/-- Every unmarked script service name gets registered on a successful
pass. -/
theorem newServiceNames_mem (c : Container) :
    ∀ (scripts M : List String) (s : String), s ∈ scripts →
      checkAllServiceName c s ∉ M →
      checkAllServiceName c s ∈ newServiceNames c scripts M := by
  intro scripts
  induction scripts with
  | nil => intro M s hs; simp at hs
  | cons s0 rest ih =>
    intro M s hs hnm
    by_cases hm : checkAllServiceName c s0 ∈ M
    · rw [newServiceNames, if_pos hm]
      cases hs with
      | head => exact absurd hm hnm
      | tail _ h2 => exact ih M s h2 hnm
    · rw [newServiceNames, if_neg hm]
      by_cases heq : checkAllServiceName c s = checkAllServiceName c s0
      · simp [heq]
      · cases hs with
        | head => exact absurd rfl heq
        | tail _ h2 =>
          refine List.mem_cons_of_mem _ (ih (M ++ [checkAllServiceName c s0]) s h2 ?_)
          simp [hnm, heq]

/-- C5: registration is idempotent via the marker files.  With every
registration succeeding, running `checkAll` a second time on the same
container and script list, starting from the markers the first run
left behind, performs zero registration invocations; the first run
registers each service name at most once (`Nodup`), registering
exactly the names that were not already marked — so across the two
runs registration happens exactly once per service name not marked
beforehand. -/
theorem registration_idempotent (c : Container) (reg : String → Option String)
    (scripts M0 : List String) (hall : ∀ n, reg n = none) :
    (checkAll c reg scripts (checkAll c reg scripts M0).markers).regNames = [] ∧
    (checkAll c reg scripts M0).regNames.Nodup ∧
    (∀ s ∈ scripts,
      (checkAllServiceName c s ∉ M0 →
        checkAllServiceName c s ∈ (checkAll c reg scripts M0).regNames) ∧
      (checkAllServiceName c s ∈ M0 →
        checkAllServiceName c s ∉ (checkAll c reg scripts M0).regNames)) := by
  simp only [checkAll]
  have h1 := checkAllLoop_success c reg (contactGroup c) hall scripts M0
  have h2 := checkAllLoop_success c reg (contactGroup c) hall scripts
    (checkAllLoop c reg (contactGroup c) scripts M0).markers
  refine ⟨?_, ?_, ?_⟩
  · rw [h2.2.1]
    apply newServiceNames_all_marked
    intro s hs
    rw [h1.2.2]
    exact newServiceNames_covers c scripts M0 s hs
  · rw [h1.2.1]; exact newServiceNames_nodup c scripts M0
  · intro s hs
    constructor
    · intro hnm
      rw [h1.2.1]
      exact newServiceNames_mem c scripts M0 s hs hnm
    · intro hin
      rw [h1.2.1]
      intro hmem
      exact newServiceNames_disjoint c scripts M0 (checkAllServiceName c s) hmem hin

/-- Concrete script list used to evaluate theorems on concrete
inputs (two scripts sharing the `cpu` base name). -/
def sampleScripts : List String := ["cpu.sh", "mem.sh", "cpu.txt"]

/-- Witness for C5: the idempotence statement evaluated on a concrete
container, script list and always-succeeding oracle. -/
theorem registration_idempotent_witness :
    (checkAll cont1 regAllOk sampleScripts
      (checkAll cont1 regAllOk sampleScripts []).markers).regNames = [] ∧
    (checkAll cont1 regAllOk sampleScripts []).regNames.Nodup :=
  ⟨(registration_idempotent cont1 regAllOk sampleScripts [] (fun _ => rfl)).1,
   (registration_idempotent cont1 regAllOk sampleScripts [] (fun _ => rfl)).2.1⟩

/-- C6: if, in the `checkAll` loop, the registration subprocess for
some script's service fails (the prefix `pre` before that script
having been processed without an abort, the script's marker being
absent), then the diagnostic line is printed and the loop stops: no
marker is created for that script, no check worker is spawned for it
or for any later script, and the registration list grows only by the
failed invocation.  Containers other than this one are unaffected: a
container worker's result depends only on its own world, so changing
the failing container's world leaves every other container's run
unchanged. -/
theorem registration_failure_aborts (c : Container) (reg : String → Option String)
    (grp : String) (pre post : List String) (s : String) (M0 : List String)
    (err : String) (badId : String)
    (h1 : (checkAllLoop c reg grp pre M0).aborted = false)
    (h2 : checkAllServiceName c s ∉ (checkAllLoop c reg grp pre M0).markers)
    (h3 : reg (checkAllServiceName c s) = some err) :
    checkAllLoop c reg grp (pre ++ s :: post) M0 =
      ⟨(checkAllLoop c reg grp pre M0).lines ++ [regFailMsg (checkAllServiceName c s) err],
       (checkAllLoop c reg grp pre M0).markers,
       (checkAllLoop c reg grp pre M0).regNames ++ [checkAllServiceName c s],
       (checkAllLoop c reg grp pre M0).regCmds ++ [registrationCmd (checkAllServiceName c s) grp],
       (checkAllLoop c reg grp pre M0).spawned,
       true⟩ ∧
    (∀ (cfg : Config) (M : List String) (w1 w2 : String → ContainerWorld)
       (p : String × Container), p.1 ≠ badId →
       (∀ id, id ≠ badId → w1 id = w2 id) →
       (mkCheck cfg p.2).Run (w1 p.1).reg M (w1 p.1).discovery =
         (mkCheck cfg p.2).Run (w2 p.1).reg M (w2 p.1).discovery) := by
  constructor
  · rw [checkAllLoop_append c reg grp (s :: post) pre M0 h1]
    rw [checkAllLoop, if_neg h2, h3]
    simp
  · intro cfg M w1 w2 p hp hw
    rw [hw p.1 hp]

/-- Witness for C6: the abort behaviour evaluated on a concrete
container whose `mem_c1` registration fails after `cpu.sh` has been
processed, with `disk.sh` still pending. -/
theorem registration_failure_aborts_witness :
    checkAllLoop cont1 regFailOnMem ("atlantis_orphan_apps")
        (["cpu.sh"] ++ "mem.sh" :: ["disk.sh"]) [] =
      ⟨(checkAllLoop cont1 regFailOnMem ("atlantis_orphan_apps") ["cpu.sh"] []).lines ++
         [regFailMsg (checkAllServiceName cont1 ("mem.sh")) "exit status 1"],
       (checkAllLoop cont1 regFailOnMem ("atlantis_orphan_apps") ["cpu.sh"] []).markers,
       (checkAllLoop cont1 regFailOnMem ("atlantis_orphan_apps") ["cpu.sh"] []).regNames ++
         [checkAllServiceName cont1 ("mem.sh")],
       (checkAllLoop cont1 regFailOnMem ("atlantis_orphan_apps") ["cpu.sh"] []).regCmds ++
         [registrationCmd (checkAllServiceName cont1 ("mem.sh")) "atlantis_orphan_apps"],
       (checkAllLoop cont1 regFailOnMem ("atlantis_orphan_apps") ["cpu.sh"] []).spawned,
       true⟩ :=
  (registration_failure_aborts cont1 regFailOnMem ("atlantis_orphan_apps")
    ["cpu.sh"] ["disk.sh"] ("mem.sh") [] ("exit status 1") ("c1")
    (by decide) (by decide) (by decide)).1

/-- Witness for C10: the empty-argument-vector property of the
registration subprocesses evaluated on a concrete `checkAll` run. -/
theorem cmk_admin_single_program_string_witness :
    ((checkAll cont1 regAllOk sampleScripts []).regCmds.all fun cmd => cmd.args.isEmpty) = true :=
  (cmk_admin_single_program_string ("cpu_c1") ("atlantis_orphan_apps")
    cont1 regAllOk sampleScripts []).2.2.2.2

end AtlantisMonitor
